import Mathlib

/-!
Shallow embedding of `peeweext` (src/peeweext/__init__.py) and proofs of the
frozen claims about it.

Conventions of the embedding:
* A Python `datetime` is modelled by its absolute instant (microseconds since
  the epoch, an `Int`) together with the result of `utcoffset()`
  (`Option Int`, `none` for a timezone-naive value) and a flag recording
  whether the object is a `pendulum.Pendulum` instance.
* Fallible Python code returns `Except String _`; the string carries the
  exception and its message.
* Signals (`blinker`) are lists of receivers run in order; a receiver may
  mutate the instance (returning a new state) or raise.
-/

namespace Peeweext

/-- A Python datetime value: absolute instant in microseconds since the epoch,
the `utcoffset()` result in minutes (`none` when timezone-naive), and whether
the object is a `pendulum.Pendulum` (a subclass of `datetime.datetime`). -/
structure Datetime where
  instant : Int
  offsetMinutes : Option Int
  isPendulum : Bool
  deriving Repr, DecidableEq

/-- `utcoffset() is not None`: the value is timezone-aware. -/
def Datetime.isAware (d : Datetime) : Bool :=
  d.offsetMinutes.isSome

/-- `value.astimezone(datetime.timezone.utc)`: same instant, offset zero,
result is a plain `datetime.datetime`. -/
def Datetime.astimezoneUtc (d : Datetime) : Datetime :=
  ⟨d.instant, some 0, false⟩

/-- `pendulum_value._datetime`: the plain `datetime` wrapped by a
`pendulum.Pendulum`, same instant and offset. -/
def Datetime.toPlain (d : Datetime) : Datetime :=
  { d with isPendulum := false }

/-- `pendulum.instance(value)`: wrap a `datetime` as a `Pendulum`, preserving
the instant; a naive input gets the default UTC timezone attached. -/
def pendulumInstance (d : Datetime) : Datetime :=
  ⟨d.instant, some (d.offsetMinutes.getD 0), true⟩

/-- Stand-in for `pendulum.parse` (external library; the textual branch of
`python_value` is not on the path of any claim, which all feed it datetime
objects). -/
def pendulumParse (_s : String) : Datetime :=
  ⟨0, some 0, true⟩

/-- A Python value as seen by the field converters: `None`, a string, a
datetime, or some other non-datetime object (represented by an `Int`). -/
inductive PyValue where
  | none
  | str (s : String)
  | dt (d : Datetime)
  | obj (n : Int)
  | bool (b : Bool)
  deriving Repr, DecidableEq

/-- `isinstance(value, datetime.datetime)`. -/
def PyValue.isDatetime : PyValue → Bool
  | .dt _ => true
  | _ => false

/-- The value is a datetime whose `utcoffset()` is `None`. -/
def PyValue.isNaiveDatetime : PyValue → Bool
  | .dt d => !d.isAware
  | _ => false

namespace DatetimeTZField

/-- `DatetimeTZField.python_value`: a string is parsed with `pendulum.parse`;
a `datetime.datetime` is wrapped with `pendulum.instance`; anything else is
returned unchanged. -/
def python_value : PyValue → PyValue
  | .str s => .dt (pendulumParse s)
  | .dt d => .dt (pendulumInstance d)
  | v => v

/-- `DatetimeTZField.db_value`: `None` passes through; a non-datetime raises
`ValueError('datetime instance required')`; a naive datetime raises
`ValueError('timezone aware datetime required')`; a `Pendulum` is unwrapped to
its plain datetime; finally the value is converted to UTC. -/
def db_value : PyValue → Except String PyValue
  | .none => .ok .none
  | .dt d =>
      if d.offsetMinutes = Option.none then
        .error "timezone aware datetime required"
      else
        let v := if d.isPendulum then d.toPlain else d
        .ok (.dt v.astimezoneUtc)
  | _ => .error "datetime instance required"

end DatetimeTZField

/-- Writing through the field and reading the stored value back:
`python_value` applied to the result of `db_value`. -/
def writeRead (v : PyValue) : Except String PyValue :=
  (DatetimeTZField.db_value v).map DatetimeTZField.python_value

/-! Lifecycle-hooked record base type. -/

/-- A primary-key attribute value (an opaque library value; modelled as an
integer or string so Python truthiness is meaningful). -/
inductive PKValue where
  | int (n : Int)
  | str (s : String)
  deriving Repr, DecidableEq

/-- Python `bool(...)` of the `self._pk` attribute, which is `None` when no
primary-key value is set: `0` and `''` are falsy. -/
def pyBool : Option PKValue → Bool
  | Option.none => false
  | some (.int n) => n != 0
  | some (.str s) => s != ""

/-- The attribute state of a `Model` record: the primary-key value (`None`
when unset) and the two `DatetimeTZField` timestamps. -/
structure ModelState where
  pk : Option PKValue
  created_at : Datetime
  updated_at : Datetime
  deriving Repr, DecidableEq

/-- `pendulum.utcnow()` at clock reading `t`: an aware UTC `Pendulum`. -/
def utcnow (t : Int) : Datetime :=
  ⟨t, some 0, true⟩

/-- The observable lifecycle events: each signal emission and each delegated
call into the underlying persistence engine, in order. -/
inductive Event where
  | preInit
  | preSave (created : Bool)
  | superSave
  | postSave (created : Bool)
  | preDelete
  | superDelete
  | postDelete
  deriving Repr, DecidableEq

/-- A receiver connected to `pre_save`/`post_save`: it gets the `created`
flag and the instance, may mutate the instance in place, and may raise. -/
abbrev SaveObserver := Bool → ModelState → Except String ModelState

/-- A receiver connected to `pre_init`/`pre_delete`/`post_delete`. -/
abbrev Observer := ModelState → Except String ModelState

/-- `signal.send` for save signals: run the connected receivers in
registration order; a raised exception propagates. -/
def sendSave (obs : List SaveObserver) (created : Bool) (m : ModelState) :
    Except String ModelState :=
  obs.foldlM (fun s o => o created s) m

/-- `signal.send` for the other signals. -/
def sendPlain (obs : List Observer) (m : ModelState) : Except String ModelState :=
  obs.foldlM (fun s o => o s) m

/-- The `created` flag computed by `Model.save`:
`kwargs.get('force_insert', False) or not bool(pk_value)`. -/
def savedCreated (m : ModelState) (forceInsert : Bool) : Bool :=
  forceInsert || !(pyBool m.pk)

namespace Model

/-- `Model.save`: compute `created`, send `pre_save`, delegate to
`super().save(...)` (modelled as a function from the instance to the updated
instance and the engine's return value), send `post_save` with the same flag,
and return the engine's result. The event trace records what was emitted. -/
def save (preObs postObs : List SaveObserver)
    (superSave : ModelState → ModelState × Int)
    (m : ModelState) (forceInsert : Bool) :
    Except String (ModelState × Int) × List Event :=
  let created := savedCreated m forceInsert
  match sendSave preObs created m with
  | .error e => (.error e, [.preSave created])
  | .ok m1 =>
      let (m2, ret) := superSave m1
      match sendSave postObs created m2 with
      | .error e => (.error e, [.preSave created, .superSave, .postSave created])
      | .ok m3 => (.ok (m3, ret), [.preSave created, .superSave, .postSave created])

/-- `Model.delete_instance`: send `pre_delete`, delegate to
`super().delete_instance(...)`, send `post_delete`, return the engine's
result. -/
def delete_instance (preObs postObs : List Observer)
    (superDelete : ModelState → ModelState × Int)
    (m : ModelState) :
    Except String (ModelState × Int) × List Event :=
  match sendPlain preObs m with
  | .error e => (.error e, [.preDelete])
  | .ok m1 =>
      let (m2, ret) := superDelete m1
      match sendPlain postObs m2 with
      | .error e => (.error e, [.preDelete, .superDelete, .postDelete])
      | .ok m3 => (.ok (m3, ret), [.preDelete, .superDelete, .postDelete])

/-- `Model.__init__`: base initialization builds the instance (both timestamp
fields default to `pendulum.utcnow()`), then `pre_init` is sent with the
fully constructed instance. -/
def init (preInitObs : List Observer) (t : Int) (pk : Option PKValue) :
    Except String ModelState × List Event :=
  let m : ModelState := ⟨pk, utcnow t, utcnow t⟩
  (sendPlain preInitObs m, [.preInit])

end Model

/-- `_touch_model`, the receiver connected to `pre_save` at module load: if the
sender is a subclass of `Model`, set `instance.updated_at` to
`pendulum.utcnow()` (at clock reading `t`). -/
def touch_model (senderIsModelSubclass : Bool) (t : Int) : SaveObserver :=
  fun _created inst =>
    .ok (if senderIsModelSubclass then { inst with updated_at := utcnow t } else inst)

/-- The underlying engine's write (`pw.Model.save`): it may assign the
primary key (on insert) and returns the number of modified rows; it does not
touch the timestamp attributes. -/
def engineWrite (newPk : Option PKValue) (rows : Int) :
    ModelState → ModelState × Int :=
  fun s => ({ s with pk := newPk }, rows)

/-- The underlying engine's delete (`pw.Model.delete_instance`): returns the
number of deleted rows, leaving the attributes alone. -/
def engineDelete (rows : Int) : ModelState → ModelState × Int :=
  fun s => (s, rows)

/-! Partial update from a mapping. -/

/-- A record viewed as a generic attribute mapping, as the host library's
dict helpers see it: the field names the schema recognizes, and the current
attribute values. -/
structure DictModel where
  schema : List String
  attrs : List (String × PyValue)
  deriving Repr, DecidableEq

/-- `setattr(instance, key, value)`: replace any previous value of the key. -/
def DictModel.setAttr (m : DictModel) (k : String) (v : PyValue) : DictModel :=
  { m with attrs := m.attrs.filter (fun p => p.1 != k) ++ [(k, v)] }

/-- Modelled from the spec: the host library helper
`playhouse.shortcuts.update_model_from_dict` (an external collaborator, not
under src/) — recognized keys are assigned to the instance; an unrecognized
key fails with an `UnknownField` error unless `ignore_unknown` is set, in
which case it is silently skipped. -/
def update_model_from_dict (m : DictModel) (data : List (String × PyValue))
    (ignoreUnknown : Bool) : Except String DictModel :=
  match data with
  | [] => .ok m
  | kv :: rest =>
      if m.schema.contains kv.1 then
        update_model_from_dict (m.setAttr kv.1 kv.2) rest ignoreUnknown
      else if ignoreUnknown then
        update_model_from_dict m rest ignoreUnknown
      else
        .error ("UnknownField: " ++ kv.1)

/-- `Model.update_from_dict`: delegate to the host helper, forwarding the
`ignore_unknown` toggle (default `False`). -/
def Model.update_from_dict (m : DictModel) (data : List (String × PyValue))
    (ignoreUnknown : Bool := false) : Except String DictModel :=
  update_model_from_dict m data ignoreUnknown

/-! Dict export. -/

/-- A Python dict with string keys, in insertion order. -/
abbrev PyDict := List (String × PyValue)

/-- The `model_to_dict_config` mapping defined on `Model.Meta` in the
source. -/
def model_to_dict_config : PyDict :=
  [("recurse", .bool true), ("backrefs", .bool false), ("only", .bool true),
   ("exclude", .bool true), ("seen", .bool true), ("extra_attrs", .none),
   ("fields_from_query", .none), ("max_depth", .none), ("manytomany", .bool false)]

/-- A value of a metadata attribute: the config dict or Python `None`. -/
inductive MetaVal where
  | dict (d : PyDict)
  | pynone
  deriving Repr, DecidableEq

/-- The attributes `Model._meta` carries from `class Meta` (peewee copies the
non-standard `Meta` attributes onto the metadata object):
`model_to_dict_config` and `message_class`. -/
def metaAttrs : List (String × MetaVal) :=
  [("model_to_dict_config", .dict model_to_dict_config),
   ("message_class", .pynone)]

/-- Python attribute access on `Model._meta`: a missing attribute raises
`AttributeError`. -/
def metaGetattr (name : String) : Except String MetaVal :=
  match metaAttrs.lookup name with
  | some v => .ok v
  | Option.none => .error ("AttributeError: " ++ name)

/-- Python `dict.update`: entries of the right dict override the left. -/
def dictUpdate (base upd : PyDict) : PyDict :=
  base.filter (fun p => (upd.lookup p.1).isNone) ++ upd

/-- Modelled from the spec: the host library conversion
`playhouse.shortcuts.model_to_dict` (an external collaborator) renders the
instance as a dict under the given options. -/
def model_to_dict (m : ModelState) (_config : PyDict) : PyDict :=
  [("id", match m.pk with
          | some (.int n) => .obj n
          | some (.str s) => .str s
          | Option.none => .none),
   ("created_at", .dt m.created_at),
   ("updated_at", .dt m.updated_at)]

/-- Modelled from the spec: `cast_dict` from the repository's `utils` module
(missing from src/) applies the per-type coercion to each value of the
dict. -/
def cast_dict (d : PyDict) (coerce : PyValue → PyValue) : PyDict :=
  d.map (fun p => (p.1, coerce p.2))

/-- `Model.to_dict` as written in the source: read
`self._meta.serialize_config`, merge the caller kwargs into a local
`default_kwargs`, call `shortcuts.model_to_dict` with
`self._meta.default_kwargs` (the local merge is never passed on), then apply
`cast_dict` when a coercion is given. -/
def Model.to_dict (m : ModelState) (defaultCoerce : Option (PyValue → PyValue))
    (kwargs : PyDict) : Except String PyDict := do
  let sc ← metaGetattr "serialize_config"
  let scd := match sc with | .dict d => d | .pynone => []
  let default_kwargs := dictUpdate scd kwargs
  let mtd ← metaGetattr "default_kwargs"
  let mtdd := match mtd with | .dict d => d | .pynone => []
  let d := model_to_dict m mtdd
  match defaultCoerce with
  | some f => pure (cast_dict d f)
  | Option.none => pure d

/-! Connection-pooled smart databases. -/

/-- The connection/transaction state of a database, with a sensor counting
the currently open connection scopes. -/
structure DbState where
  inTransaction : Bool
  openScopes : Nat
  deriving Repr, DecidableEq

/-- `with self.connection_context():` — open a scope, run the body, release
the scope on every exit path (normal return or raised error alike; the body
threads its state through errors). -/
def connection_context {α : Type} (body : DbState → DbState × Except String α)
    (s : DbState) : DbState × Except String α :=
  let s1 := { s with openScopes := s.openScopes + 1 }
  let (s2, r) := body s1
  ({ s2 with openScopes := s2.openScopes - 1 }, r)

/-- `SmartDatabase.execute`: if a transaction is active, execute directly;
otherwise wrap the single statement in a connection context. -/
def SmartDatabase.execute {α : Type}
    (superExecute : DbState → DbState × Except String α) (s : DbState) :
    DbState × Except String α :=
  if s.inTransaction then superExecute s
  else connection_context superExecute s

/-- A concrete engine `execute` that fails, to exercise the error exit
path. -/
def failingExecute : DbState → DbState × Except String Int :=
  fun st => (st, .error "db connection lost")

end Peeweext

namespace Peeweext

/-- Claim C1: for every timezone-aware datetime `t`, reading back what the
temporal field writes — `python_value (db_value t)` — yields a timezone-aware
value instant-equal to `t` converted to UTC. -/
theorem c1_field_roundtrip (d : Datetime) (h : d.isAware = true) :
    writeRead (.dt d) = .ok (.dt ⟨d.instant, some 0, true⟩) ∧
    (Datetime.mk d.instant (some 0) true).isAware = true ∧
    (Datetime.mk d.instant (some 0) true).instant = d.astimezoneUtc.instant := by
  obtain ⟨i, o, p⟩ := d
  simp only [Datetime.isAware, Option.isSome] at h
  cases o with
  | none => simp at h
  | some o =>
      refine ⟨?_, rfl, rfl⟩
      cases p <;>
        simp [writeRead, DatetimeTZField.db_value, DatetimeTZField.python_value,
          Datetime.toPlain, Datetime.astimezoneUtc, pendulumInstance, Except.map]

/-- Witness for C1 at a concrete aware datetime (instant 123 µs, offset +60 min,
a `Pendulum` instance). -/
theorem c1_field_roundtrip_witness :
    (Datetime.mk 123 (some 60) true).isAware = true ∧
    (writeRead (.dt (Datetime.mk 123 (some 60) true))
        = .ok (.dt ⟨123, some 0, true⟩) ∧
      (Datetime.mk 123 (some 0) true).isAware = true ∧
      (Datetime.mk 123 (some 0) true).instant
        = (Datetime.mk 123 (some 60) true).astimezoneUtc.instant) :=
  ⟨by decide, c1_field_roundtrip ⟨123, some 60, true⟩ (by decide)⟩

/-- Claim C2: `db_value` raises exactly on non-`None` inputs that are not
datetimes (message "datetime instance required") or are naive datetimes
(message "timezone aware datetime required"); `None` passes through
unchanged. -/
theorem c2_db_value_errors (v : PyValue) :
    (DatetimeTZField.db_value v = .error "datetime instance required"
      ↔ (v ≠ .none ∧ v.isDatetime = false)) ∧
    (DatetimeTZField.db_value v = .error "timezone aware datetime required"
      ↔ v.isNaiveDatetime = true) ∧
    DatetimeTZField.db_value .none = .ok .none ∧
    ((∃ e, DatetimeTZField.db_value v = .error e)
      ↔ (v ≠ .none ∧ (v.isDatetime = false ∨ v.isNaiveDatetime = true))) := by
  refine ⟨?_, ?_, rfl, ?_⟩ <;>
  cases v with
  | none => simp [DatetimeTZField.db_value, PyValue.isDatetime, PyValue.isNaiveDatetime]
  | str s => simp [DatetimeTZField.db_value, PyValue.isDatetime, PyValue.isNaiveDatetime]
  | obj n => simp [DatetimeTZField.db_value, PyValue.isDatetime, PyValue.isNaiveDatetime]
  | bool b => simp [DatetimeTZField.db_value, PyValue.isDatetime, PyValue.isNaiveDatetime]
  | dt d =>
      obtain ⟨i, o, p⟩ := d
      cases o <;> cases p <;>
        simp [DatetimeTZField.db_value, PyValue.isDatetime, PyValue.isNaiveDatetime,
          Datetime.isAware]

/-- Counterexample to claim C3 as stated: at a record whose primary-key value
IS currently set (to the integer 0) and with no forced insertion, `Model.save`
computes `created = true`, while the claim's formula
"(no primary-key value currently set) OR force_insert" gives `false`. -/
theorem c3_counterexample :
    savedCreated ⟨some (.int 0), utcnow 0, utcnow 0⟩ false = true ∧
    (decide ((some (PKValue.int 0) : Option PKValue) = Option.none) || false) = false ∧
    (Model.save [] [] (engineWrite (some (.int 0)) 1)
        ⟨some (.int 0), utcnow 0, utcnow 0⟩ false).2.head?
      = some (.preSave true) := by
  decide

/-- Claim C3 (amended): the `created` flag equals
`force_insert OR (primary-key value absent or falsy)`; `pre_save` is emitted
with that flag before the delegated write, `post_save` with the same flag
after it, and the engine's return value is returned unchanged. -/
theorem c3_save_contract (preObs postObs : List SaveObserver)
    (superSave : ModelState → ModelState × Int) (m m1 m3 : ModelState) (fi : Bool)
    (hpre : sendSave preObs (savedCreated m fi) m = .ok m1)
    (hpost : sendSave postObs (savedCreated m fi) (superSave m1).1 = .ok m3) :
    savedCreated m fi = (fi || !(pyBool m.pk)) ∧
    Model.save preObs postObs superSave m fi
      = (.ok (m3, (superSave m1).2),
         [.preSave (savedCreated m fi), .superSave, .postSave (savedCreated m fi)]) := by
  refine ⟨rfl, ?_⟩
  simp [Model.save, hpre, hpost]

/-- Witness for C3 (amended) at empty observer lists, a fresh record and a
concrete engine write. -/
theorem c3_save_contract_witness :
    (sendSave [] (savedCreated ⟨Option.none, utcnow 0, utcnow 0⟩ false)
        ⟨Option.none, utcnow 0, utcnow 0⟩ = .ok ⟨Option.none, utcnow 0, utcnow 0⟩ ∧
     sendSave [] (savedCreated ⟨Option.none, utcnow 0, utcnow 0⟩ false)
        (engineWrite (some (.int 7)) 1 ⟨Option.none, utcnow 0, utcnow 0⟩).1
       = .ok ⟨some (.int 7), utcnow 0, utcnow 0⟩) ∧
    (savedCreated ⟨Option.none, utcnow 0, utcnow 0⟩ false
        = (false || !(pyBool (⟨Option.none, utcnow 0, utcnow 0⟩ : ModelState).pk)) ∧
     Model.save [] [] (engineWrite (some (.int 7)) 1)
        ⟨Option.none, utcnow 0, utcnow 0⟩ false
       = (.ok (⟨some (.int 7), utcnow 0, utcnow 0⟩,
            (engineWrite (some (.int 7)) 1 ⟨Option.none, utcnow 0, utcnow 0⟩).2),
          [.preSave (savedCreated ⟨Option.none, utcnow 0, utcnow 0⟩ false), .superSave,
           .postSave (savedCreated ⟨Option.none, utcnow 0, utcnow 0⟩ false)])) :=
  ⟨⟨rfl, rfl⟩,
   c3_save_contract [] [] (engineWrite (some (.int 7)) 1)
     ⟨Option.none, utcnow 0, utcnow 0⟩ ⟨Option.none, utcnow 0, utcnow 0⟩
     ⟨some (.int 7), utcnow 0, utcnow 0⟩ false rfl rfl⟩

/-- Claim C4: the pre-registered `_touch_model` observer sets `updated_at` to
the current UTC instant before the delegated write (the engine write receives
and persists the touched value), and after the save `updated_at` is
timezone-aware and at least its previous value. -/
theorem c4_touch_model_updated_at (m : ModelState) (fi : Bool) (t rows : Int)
    (newPk : Option PKValue) (h : m.updated_at.instant ≤ t) :
    Model.save [touch_model true t] [] (engineWrite newPk rows) m fi
      = (.ok ({ m with pk := newPk, updated_at := utcnow t }, rows),
         [.preSave (savedCreated m fi), .superSave, .postSave (savedCreated m fi)]) ∧
    (utcnow t).isAware = true ∧
    m.updated_at.instant ≤ (utcnow t).instant := by
  exact ⟨rfl, rfl, h⟩

/-- Witness for C4: a fresh record saved at clock reading 5. -/
theorem c4_touch_model_updated_at_witness :
    (ModelState.mk Option.none (utcnow 0) (utcnow 0)).updated_at.instant ≤ 5 ∧
    (Model.save [touch_model true 5] [] (engineWrite (some (.int 7)) 1)
        ⟨Option.none, utcnow 0, utcnow 0⟩ false
      = (.ok (⟨some (.int 7), utcnow 0, utcnow 5⟩, 1),
         [.preSave true, .superSave, .postSave true]) ∧
     (utcnow 5).isAware = true ∧
     (ModelState.mk Option.none (utcnow 0) (utcnow 0)).updated_at.instant
       ≤ (utcnow 5).instant) :=
  ⟨by decide,
   c4_touch_model_updated_at ⟨Option.none, utcnow 0, utcnow 0⟩ false 5 1
     (some (.int 7)) (by decide)⟩

/-- Claim C8: when a `pre_init`, `pre_save` or `pre_delete` receiver raises,
the exception propagates unchanged and the delegated persistence call never
runs (the event trace holds only the pre-signal, no engine event). -/
theorem c8_pre_observer_error_aborts
    (preS postS : List SaveObserver) (preD postD preI : List Observer)
    (superSave superDelete : ModelState → ModelState × Int)
    (m : ModelState) (fi : Bool) (t : Int) (pk : Option PKValue) (e : String)
    (hs : sendSave preS (savedCreated m fi) m = .error e)
    (hd : sendPlain preD m = .error e)
    (hi : sendPlain preI ⟨pk, utcnow t, utcnow t⟩ = .error e) :
    Model.save preS postS superSave m fi
      = (.error e, [.preSave (savedCreated m fi)]) ∧
    Model.delete_instance preD postD superDelete m = (.error e, [.preDelete]) ∧
    Model.init preI t pk = (.error e, [.preInit]) := by
  refine ⟨?_, ?_, ?_⟩
  · simp [Model.save, hs]
  · simp [Model.delete_instance, hd]
  · simp [Model.init, hi]

/-- Witness for C8: a raising observer connected to each pre-signal. -/
theorem c8_pre_observer_error_aborts_witness :
    (sendSave [fun _ _ => .error "boom"]
        (savedCreated ⟨Option.none, utcnow 0, utcnow 0⟩ false)
        ⟨Option.none, utcnow 0, utcnow 0⟩ = .error "boom" ∧
     sendPlain [fun _ => .error "boom"] ⟨Option.none, utcnow 0, utcnow 0⟩
       = .error "boom" ∧
     sendPlain [fun _ => .error "boom"] ⟨some (.int 1), utcnow 3, utcnow 3⟩
       = .error "boom") ∧
    (Model.save [fun _ _ => .error "boom"] [] (engineWrite (some (.int 7)) 1)
        ⟨Option.none, utcnow 0, utcnow 0⟩ false
      = (.error "boom",
         [.preSave (savedCreated ⟨Option.none, utcnow 0, utcnow 0⟩ false)]) ∧
     Model.delete_instance [fun _ => .error "boom"] [] (engineDelete 1)
        ⟨Option.none, utcnow 0, utcnow 0⟩
       = (.error "boom", [.preDelete]) ∧
     Model.init [fun _ => .error "boom"] 3 (some (.int 1))
       = (.error "boom", [.preInit])) :=
  ⟨⟨rfl, rfl, rfl⟩,
   c8_pre_observer_error_aborts [fun _ _ => .error "boom"] []
     [fun _ => .error "boom"] [] [fun _ => .error "boom"]
     (engineWrite (some (.int 7)) 1) (engineDelete 1)
     ⟨Option.none, utcnow 0, utcnow 0⟩ false 3 (some (.int 1)) "boom"
     rfl rfl rfl⟩

/-- Claim C9: `created_at` is set once at construction; the lifecycle layer's
save (with its default `_touch_model` observer) and delete leave `created_at`
unchanged, while every save refreshes `updated_at` to the current UTC
instant. -/
theorem c9_created_at_immutable (t0 t : Int) (pk0 newPk : Option PKValue)
    (m : ModelState) (fi : Bool) (rows : Int) :
    (Model.init [] t0 pk0).1 = .ok ⟨pk0, utcnow t0, utcnow t0⟩ ∧
    Model.save [touch_model true t] [] (engineWrite newPk rows) m fi
      = (.ok ({ m with pk := newPk, updated_at := utcnow t }, rows),
         [.preSave (savedCreated m fi), .superSave, .postSave (savedCreated m fi)]) ∧
    ({ m with pk := newPk, updated_at := utcnow t } : ModelState).created_at
      = m.created_at ∧
    Model.delete_instance [] [] (engineDelete rows) m
      = (.ok (m, rows), [.preDelete, .superDelete, .postDelete]) := by
  exact ⟨rfl, rfl, rfl, rfl⟩

/-- Claim C10: a set but falsy primary-key value (such as the integer 0)
yields `created = true` on save without forced insertion — creation is
decided by Python truthiness, not by mere presence of the value. -/
theorem c10_falsy_pk_counts_as_created (m : ModelState)
    (hset : m.pk ≠ Option.none) (hfalsy : pyBool m.pk = false)
    (preObs postObs : List SaveObserver)
    (superSave : ModelState → ModelState × Int) :
    savedCreated m false = true ∧
    (Model.save preObs postObs superSave m false).2.head?
      = some (.preSave true) := by
  have hc : savedCreated m false = true := by simp [savedCreated, hfalsy]
  refine ⟨hc, ?_⟩
  unfold Model.save
  rw [hc]
  cases h1 : sendSave preObs true m with
  | error e => simp [h1]
  | ok m1 =>
      cases h2 : sendSave postObs true (superSave m1).1 with
      | error e => simp [h1, h2]
      | ok m3 => simp [h1, h2]

/-- Witness for C10: a record whose primary key holds the integer 0. -/
theorem c10_falsy_pk_counts_as_created_witness :
    ((⟨some (.int 0), utcnow 0, utcnow 0⟩ : ModelState).pk ≠ Option.none ∧
     pyBool (⟨some (.int 0), utcnow 0, utcnow 0⟩ : ModelState).pk = false) ∧
    (savedCreated ⟨some (.int 0), utcnow 0, utcnow 0⟩ false = true ∧
     (Model.save [] [] (engineWrite Option.none 1)
         ⟨some (.int 0), utcnow 0, utcnow 0⟩ false).2.head?
       = some (.preSave true)) :=
  ⟨⟨by decide, by decide⟩,
   c10_falsy_pk_counts_as_created ⟨some (.int 0), utcnow 0, utcnow 0⟩
     (by decide) (by decide) [] [] (engineWrite Option.none 1)⟩

/-- Claim C5 (the code as written): `Model.to_dict` fails with
`AttributeError: serialize_config` on every call — the metadata defines
`model_to_dict_config`, not `serialize_config`, and the merged local
`default_kwargs` is never passed on — so the claimed delegation to
`model_to_dict` with merged options followed by `cast_dict` never happens. -/
theorem c5_to_dict_raises (m : ModelState)
    (defaultCoerce : Option (PyValue → PyValue)) (kwargs : PyDict) :
    Model.to_dict m defaultCoerce kwargs
      = .error "AttributeError: serialize_config" := by
  rfl

/-- Permissive updates never fail: with `ignore_unknown` set, every key is
either assigned or skipped. -/
theorem update_true_ok (data : List (String × PyValue)) :
    ∀ m : DictModel, ∃ m', update_model_from_dict m data true = .ok m' := by
  induction data with
  | nil => intro m; exact ⟨m, rfl⟩
  | cons kv rest ih =>
      intro m
      cases hc : m.schema.contains kv.1 with
      | true =>
          obtain ⟨m', hm'⟩ := ih (m.setAttr kv.1 kv.2)
          have hmem : kv.1 ∈ m.schema := by simpa using hc
          exact ⟨m', by simp [update_model_from_dict, hmem, hm']⟩
      | false =>
          obtain ⟨m', hm'⟩ := ih m
          have hmem : kv.1 ∉ m.schema := by simpa using hc
          exact ⟨m', by simp [update_model_from_dict, hmem, hm']⟩

/-- Permissive updates ignore exactly the unrecognized keys: the result is
that of updating with the data filtered to the recognized keys. -/
theorem update_true_skips_unknown (data : List (String × PyValue)) :
    ∀ m : DictModel,
      update_model_from_dict m data true
        = update_model_from_dict
            (m := m) (data.filter (fun kv => m.schema.contains kv.1)) true := by
  induction data with
  | nil => intro m; rfl
  | cons kv rest ih =>
      intro m
      cases hc : m.schema.contains kv.1 with
      | true =>
          simp only [update_model_from_dict, hc, if_true, List.filter_cons]
          exact ih (m.setAttr kv.1 kv.2)
      | false =>
          simp only [update_model_from_dict, hc, List.filter_cons]
          simpa using ih m

/-- Strict updates fail at the first unrecognized key. -/
theorem update_false_unknown_fails (data : List (String × PyValue)) :
    ∀ m : DictModel, (∃ kv ∈ data, m.schema.contains kv.1 = false) →
      ∃ k, update_model_from_dict m data false
          = .error ("UnknownField: " ++ k) ∧ m.schema.contains k = false := by
  induction data with
  | nil => intro m h; simp at h
  | cons kv rest ih =>
      intro m h
      cases hc : m.schema.contains kv.1 with
      | true =>
          have hrest : ∃ kv' ∈ rest, m.schema.contains kv'.1 = false := by
            obtain ⟨kv', hmem, hbad⟩ := h
            rcases List.mem_cons.mp hmem with rfl | hmem'
            · rw [hc] at hbad; exact absurd hbad (by simp)
            · exact ⟨kv', hmem', hbad⟩
          obtain ⟨k, hk, hkbad⟩ := ih (m.setAttr kv.1 kv.2) hrest
          have hmem : kv.1 ∈ m.schema := by simpa using hc
          exact ⟨k, by simpa [update_model_from_dict, hmem] using hk, hkbad⟩
      | false =>
          have hmem : kv.1 ∉ m.schema := by simpa using hc
          exact ⟨kv.1, by simp [update_model_from_dict, hmem], hc⟩

/-- Claim C6: `update_from_dict` is strict by default — an unrecognized key
fails with an `UnknownField` error; with the permissive toggle it succeeds
and silently skips the unrecognized keys. -/
theorem c6_update_from_dict_strictness (m : DictModel)
    (data : List (String × PyValue))
    (hbad : ∃ kv ∈ data, m.schema.contains kv.1 = false) :
    (∃ k, Model.update_from_dict m data = .error ("UnknownField: " ++ k)
        ∧ m.schema.contains k = false) ∧
    (∃ m', Model.update_from_dict m data true = .ok m') ∧
    Model.update_from_dict m data true
      = Model.update_from_dict m
          (data.filter (fun kv => m.schema.contains kv.1)) true :=
  ⟨update_false_unknown_fails data m hbad,
   update_true_ok data m,
   update_true_skips_unknown data m⟩

/-- Witness for C6: a schema knowing only "name", updated from a mapping that
also holds the unrecognized key "bogus". -/
theorem c6_update_from_dict_strictness_witness :
    (∃ kv ∈ [("name", PyValue.obj 1), ("bogus", PyValue.obj 2)],
        (DictModel.mk ["name"] []).schema.contains kv.1 = false) ∧
    ((∃ k, Model.update_from_dict ⟨["name"], []⟩
            [("name", PyValue.obj 1), ("bogus", PyValue.obj 2)]
          = .error ("UnknownField: " ++ k)
        ∧ (DictModel.mk ["name"] []).schema.contains k = false) ∧
     (∃ m', Model.update_from_dict ⟨["name"], []⟩
            [("name", PyValue.obj 1), ("bogus", PyValue.obj 2)] true = .ok m') ∧
     Model.update_from_dict ⟨["name"], []⟩
        [("name", PyValue.obj 1), ("bogus", PyValue.obj 2)] true
       = Model.update_from_dict ⟨["name"], []⟩
          ([("name", PyValue.obj 1), ("bogus", PyValue.obj 2)].filter
            (fun kv => (DictModel.mk ["name"] []).schema.contains kv.1)) true) :=
  ⟨by decide,
   c6_update_from_dict_strictness ⟨["name"], []⟩
     [("name", PyValue.obj 1), ("bogus", PyValue.obj 2)] (by decide)⟩

/-- Claim C7: `SmartDatabase.execute` runs the statement directly when a
transaction is active (no new scope); otherwise it opens one connection scope
for the duration of the single statement, hands the engine's result through,
and the scope count is back to its initial value on every exit path (the
engine preserving the scope count, whether its result is a success or an
error). -/
theorem c7_smart_execute (superExecute : DbState → DbState × Except String Int)
    (s : DbState)
    (hscopes : ∀ st, ((superExecute st).1).openScopes = st.openScopes) :
    (s.inTransaction = true →
      SmartDatabase.execute superExecute s = superExecute s) ∧
    (s.inTransaction = false →
      SmartDatabase.execute superExecute s
        = ({ (superExecute { s with openScopes := s.openScopes + 1 }).1 with
              openScopes :=
                ((superExecute
                    { s with openScopes := s.openScopes + 1 }).1).openScopes
                  - 1 },
           (superExecute { s with openScopes := s.openScopes + 1 }).2) ∧
      ((SmartDatabase.execute superExecute s).1).openScopes = s.openScopes ∧
      (SmartDatabase.execute superExecute s).2
        = (superExecute { s with openScopes := s.openScopes + 1 }).2) := by
  constructor
  · intro h
    simp [SmartDatabase.execute, h]
  · intro h
    have hexec : SmartDatabase.execute superExecute s
        = ({ (superExecute { s with openScopes := s.openScopes + 1 }).1 with
              openScopes :=
                ((superExecute
                    { s with openScopes := s.openScopes + 1 }).1).openScopes
                  - 1 },
           (superExecute { s with openScopes := s.openScopes + 1 }).2) := by
      simp [SmartDatabase.execute, connection_context, h]
    refine ⟨hexec, ?_, ?_⟩
    · rw [hexec]
      simp [hscopes]
    · rw [hexec]

/-- Witness for C7: outside a transaction, a failing engine call still leaves
the scope count where it started. -/
theorem c7_smart_execute_witness :
    (∀ st, ((failingExecute st).1).openScopes = st.openScopes) ∧
    (((DbState.mk false 2).inTransaction = true →
       SmartDatabase.execute failingExecute ⟨false, 2⟩
         = failingExecute ⟨false, 2⟩) ∧
     ((DbState.mk false 2).inTransaction = false →
       SmartDatabase.execute failingExecute ⟨false, 2⟩
         = ({ (failingExecute
                { (DbState.mk false 2) with
                    openScopes := (DbState.mk false 2).openScopes + 1 }).1 with
               openScopes :=
                 ((failingExecute
                     { (DbState.mk false 2) with
                         openScopes :=
                           (DbState.mk false 2).openScopes + 1 }).1).openScopes
                   - 1 },
            (failingExecute
               { (DbState.mk false 2) with
                   openScopes := (DbState.mk false 2).openScopes + 1 }).2) ∧
       ((SmartDatabase.execute failingExecute ⟨false, 2⟩).1).openScopes
         = (DbState.mk false 2).openScopes ∧
       (SmartDatabase.execute failingExecute ⟨false, 2⟩).2
         = (failingExecute
              { (DbState.mk false 2) with
                  openScopes := (DbState.mk false 2).openScopes + 1 }).2)) :=
  ⟨fun _ => rfl, c7_smart_execute failingExecute ⟨false, 2⟩ (fun _ => rfl)⟩

end Peeweext
